import Mathlib

/-!
# Verification of the `iri-string` validation layer (`src/validate/iri.rs`)

The validation layer wraps a grammar engine (the crate's `parser` module,
parameterized by a spec-policy type such as `IriSpec`) with nom's
`all_consuming` combinator and collapses the outcome to `Result<(), Error>`
via `conv_err`.  The grammar engine itself is an external collaborator in
the spec; its productions are modelled here from the RFC 3986/3987 ABNF
that the spec names as normative.
-/

namespace IriString

/-! ## Character classes (modelled from the RFC 3986/3987 ABNF named by the spec) -/

/-- `ALPHA` from RFC 2234 core rules: `%x41-5A / %x61-7A`. -/
def isAlphaC (c : Char) : Bool :=
  (0x41 ≤ c.toNat && c.toNat ≤ 0x5A) || (0x61 ≤ c.toNat && c.toNat ≤ 0x7A)

/-- `DIGIT`: `%x30-39`. -/
def isDigitC (c : Char) : Bool :=
  0x30 ≤ c.toNat && c.toNat ≤ 0x39

/-- `HEXDIG`: `DIGIT / "A"-"F" / "a"-"f"` (nom matches both cases). -/
def isHexDigC (c : Char) : Bool :=
  isDigitC c || (0x41 ≤ c.toNat && c.toNat ≤ 0x46) || (0x61 ≤ c.toNat && c.toNat ≤ 0x66)

/-- `unreserved = ALPHA / DIGIT / "-" / "." / "_" / "~"` (RFC 3986). -/
def isUnreservedC (c : Char) : Bool :=
  isAlphaC c || isDigitC c || c = '-' || c = '.' || c = '_' || c = '~'

/-- `sub-delims = "!" / "$" / "&" / "'" / "(" / ")" / "*" / "+" / "," / ";" / "="`.
The apostrophe is written as `Char.ofNat 39`. -/
def isSubDelimC (c : Char) : Bool :=
  c = '!' || c = '$' || c = '&' || c = Char.ofNat 39 || c = '(' || c = ')' ||
  c = '*' || c = '+' || c = ',' || c = ';' || c = '='

/-- `ucschar` (RFC 3987): the Unicode ranges admitted by the IRI policy in
host, path, query and fragment positions. -/
def isUcscharC (c : Char) : Bool :=
  let n := c.toNat
  (0xA0 ≤ n && n ≤ 0xD7FF) || (0xF900 ≤ n && n ≤ 0xFDCF) ||
  (0xFDF0 ≤ n && n ≤ 0xFFEF) ||
  (0x10000 ≤ n && n ≤ 0x1FFFD) || (0x20000 ≤ n && n ≤ 0x2FFFD) ||
  (0x30000 ≤ n && n ≤ 0x3FFFD) || (0x40000 ≤ n && n ≤ 0x4FFFD) ||
  (0x50000 ≤ n && n ≤ 0x5FFFD) || (0x60000 ≤ n && n ≤ 0x6FFFD) ||
  (0x70000 ≤ n && n ≤ 0x7FFFD) || (0x80000 ≤ n && n ≤ 0x8FFFD) ||
  (0x90000 ≤ n && n ≤ 0x9FFFD) || (0xA0000 ≤ n && n ≤ 0xAFFFD) ||
  (0xB0000 ≤ n && n ≤ 0xBFFFD) || (0xC0000 ≤ n && n ≤ 0xCFFFD) ||
  (0xD0000 ≤ n && n ≤ 0xDFFFD) || (0xE1000 ≤ n && n ≤ 0xEFFFD)

/-- `iprivate` (RFC 3987): private-use code points admitted in `iquery`
under the IRI policy. -/
def isIprivateC (c : Char) : Bool :=
  let n := c.toNat
  (0xE000 ≤ n && n ≤ 0xF8FF) || (0xF0000 ≤ n && n ≤ 0xFFFFD) ||
  (0x100000 ≤ n && n ≤ 0x10FFFD)

/-! ## Spec policy

Modelled from the spec: the spec capability (`IriSpec` vs the plain-URI
spec) is a zero-data marker selecting a character-class policy — which
extra Unicode code points (`ucschar`, `iprivate`) are admitted on top of
the ASCII RFC 3986 classes.  It is threaded through every grammar-engine
call as a type parameter in the source. -/

structure SpecPolicy where
  ucschar : Char → Bool
  iprivate : Char → Bool

/-- The RFC 3987 IRI policy: Unicode-aware (`ucschar`/`iprivate` admitted). -/
def IriSpec : SpecPolicy := ⟨isUcscharC, isIprivateC⟩

/-- The plain RFC 3986 URI policy: ASCII-only (no extra code points). -/
def UriSpec : SpecPolicy := ⟨fun _ => false, fun _ => false⟩

/-- `iunreserved = unreserved / ucschar` under the active policy. -/
def iunreservedP (sp : SpecPolicy) (c : Char) : Bool :=
  isUnreservedC c || sp.ucschar c

/-- `ipchar = iunreserved / pct-encoded / sub-delims / ":" / "@"`
(the percent-encoded case is handled by `takeClass`). -/
def ipcharP (sp : SpecPolicy) (c : Char) : Bool :=
  iunreservedP sp c || isSubDelimC c || c = ':' || c = '@'

/-- Characters of `iuserinfo = *( iunreserved / pct-encoded / sub-delims / ":" )`. -/
def iuserinfoP (sp : SpecPolicy) (c : Char) : Bool :=
  iunreservedP sp c || isSubDelimC c || c = ':'

/-- Characters of `ireg-name = *( iunreserved / pct-encoded / sub-delims )`. -/
def iregNameP (sp : SpecPolicy) (c : Char) : Bool :=
  iunreservedP sp c || isSubDelimC c

/-- Characters of `isegment-nz-nc = 1*( iunreserved / pct-encoded / sub-delims / "@" )`
(the first segment of `ipath-noscheme`; no colon permitted). -/
def isegmentNzNcP (sp : SpecPolicy) (c : Char) : Bool :=
  iunreservedP sp c || isSubDelimC c || c = '@'

/-- Characters of `iquery = *( ipchar / iprivate / "/" / "?" )`. -/
def iqueryP (sp : SpecPolicy) (c : Char) : Bool :=
  ipcharP sp c || sp.iprivate c || c = '/' || c = '?'

/-- Characters of `ifragment = *( ipchar / "/" / "?" )`. -/
def ifragmentP (sp : SpecPolicy) (c : Char) : Bool :=
  ipcharP sp c || c = '/' || c = '?'

/-- `scheme = ALPHA *( ALPHA / DIGIT / "+" / "-" / "." )`: the continuation
character class of a scheme. -/
def isSchemeContC (c : Char) : Bool :=
  isAlphaC c || isDigitC c || c = '+' || c = '-' || c = '.'

/-! ## Grammar-engine productions

Modelled from the spec: the crate's `parser` module (the grammar engine) is
an external collaborator not included in the excerpt.  The spec states that
each production function "attempts to consume a maximal grammar-conformant
prefix of the input and returns either the unconsumed remainder plus a
parsed witness, or a structured parse failure", is deterministic, and must
follow the RFC 3986/3987 ABNF.  The core parsers below take the input as a
list of characters and return `some remainder` on success, `none` on
structural failure. -/

/-- Consume the maximal prefix matching `*( <class> / pct-encoded )`:
the shared shape of `isegment`, `ireg-name`, `iuserinfo`, `iquery`,
`ifragment` in the ABNF.  A `%` not followed by two `HEXDIG` stops the
match (it is left in the remainder). -/
def takeClass (ok : Char → Bool) : List Char → List Char
  | [] => []
  | c :: rest =>
    if c = '%' then
      match rest with
      | h1 :: h2 :: rest2 =>
        if isHexDigC h1 && isHexDigC h2 then takeClass ok rest2 else c :: rest
      | _ => c :: rest
    else if ok c then takeClass ok rest else c :: rest

theorem takeClass_length_le (ok : Char → Bool) (l : List Char) :
    (takeClass ok l).length ≤ l.length := by
  induction l using takeClass.induct ok with
  | case1 => simp [takeClass]
  | case2 h1 h2 rest2 hhex ih =>
    rw [takeClass.eq_def]
    simp only [hhex, if_true, List.length_cons]
    exact le_trans ih (by omega)
  | case3 h1 h2 rest2 hhex =>
    rw [takeClass.eq_def]
    simp [hhex]
  | case4 rest hshort =>
    rcases rest with _ | ⟨a, _ | ⟨b, t⟩⟩
    · rw [takeClass.eq_def]; simp
    · rw [takeClass.eq_def]; simp
    · exact absurd rfl (hshort a b t)
  | case5 c rest hc hok ih =>
    rw [takeClass.eq_def]
    simp only [hc, hok, if_true, if_false, List.length_cons, if_neg hc]
    exact le_trans ih (by omega)
  | case6 c rest hc hok =>
    rw [takeClass.eq_def]
    simp [hc, hok]

/-- Modelled from the spec: `IP-literal = "[" ( IPv6address / IPvFuture ) "]"`.
The spec treats host/IPv6-literal parsing as internal to the grammar engine
and out of scope ("host/IPv6-literal parsing ... treated as an external
collaborator"); the bracket structure is modelled exactly, while the inner
`IPv6address`/`IPvFuture` body is abstracted to one or more of the
characters those productions draw from (`unreserved`, `sub-delims`, ":").
No claim or witness below depends on an IP-literal host. -/
def ipLiteral : List Char → Option (List Char)
  | '[' :: rest =>
    match rest.takeWhile (fun c => isUnreservedC c || isSubDelimC c || c = ':'),
          rest.dropWhile (fun c => isUnreservedC c || isSubDelimC c || c = ':') with
    | _ :: _, ']' :: r => some r
    | _, _ => none
  | _ => none

/-- `ihost = IP-literal / IPv4address / ireg-name`.  Every `IPv4address`
is textually an `ireg-name` (digits and dots are `iunreserved`), so the
accepted language is unchanged by folding the IPv4 alternative into the
maximal `ireg-name` match.  Always succeeds: `ireg-name` may be empty. -/
def ihost (sp : SpecPolicy) (l : List Char) : List Char :=
  match ipLiteral l with
  | some r => r
  | none => takeClass (iregNameP sp) l

/-- `iauthority = [ iuserinfo "@" ] ihost [ ":" port ]` with `port = *DIGIT`.
The optional userinfo is attempted greedily and kept only when followed by
a literal `"@"` (exact for the ABNF because `"@"` is not a userinfo
character). -/
def iauthority (sp : SpecPolicy) (l : List Char) : List Char :=
  let afterUserinfo :=
    match takeClass (iuserinfoP sp) l with
    | '@' :: r => r
    | _ => l
  match ihost sp afterUserinfo with
  | ':' :: r => r.dropWhile isDigitC
  | r => r

/-- `ipath-abempty = *( "/" isegment )` with explicit fuel: greedily
consume slash-prefixed segments.  Every iteration consumes at least the
leading "/", so any fuel of at least the input length never runs out
(at fuel 0 the invariant `length ≤ fuel` forces the input to be empty and
the first arm applies); the fuel only makes the greedy ABNF loop
structurally recursive. -/
def pathAbemptyFuel (sp : SpecPolicy) : Nat → List Char → List Char
  | _, [] => []
  | 0, l => l
  | fuel + 1, '/' :: rest => pathAbemptyFuel sp fuel (takeClass (ipcharP sp) rest)
  | _, l => l

/-- `ipath-abempty = *( "/" isegment )`: greedily consume slash-prefixed
segments; always succeeds (possibly consuming nothing). -/
def pathAbempty (sp : SpecPolicy) (l : List Char) : List Char :=
  pathAbemptyFuel sp l.length l

/-- The non-authority path forms: an optional first segment drawn from the
class `first`, then `*( "/" isegment )`.  With `first := ipchar` this
covers `ipath-absolute / ipath-rootless / ipath-empty` (as in
`ihier-part`, whose callers route `"//"` to the authority branch first);
with `first :=` the `isegment-nz-nc` class it covers
`ipath-absolute / ipath-noscheme / ipath-empty` (as in `irelative-part`). -/
def pathNoAuthority (sp : SpecPolicy) (first : Char → Bool) (l : List Char) : List Char :=
  pathAbempty sp (takeClass first l)

/-- `ihier-part = "//" iauthority ipath-abempty / ipath-absolute /
ipath-rootless / ipath-empty`.  Always succeeds, possibly leaving a
remainder. -/
def ihierPart (sp : SpecPolicy) (l : List Char) : List Char :=
  match l with
  | '/' :: '/' :: rest => pathAbempty sp (iauthority sp rest)
  | l => pathNoAuthority sp (ipcharP sp) l

/-- `irelative-part = "//" iauthority ipath-abempty / ipath-absolute /
ipath-noscheme / ipath-empty`: as `ihier-part`, but the first segment of a
scheme-less path may not contain ":". -/
def irelativePart (sp : SpecPolicy) (l : List Char) : List Char :=
  match l with
  | '/' :: '/' :: rest => pathAbempty sp (iauthority sp rest)
  | l => pathNoAuthority sp (isegmentNzNcP sp) l

/-- `scheme ":"`, the mandatory head of `IRI` and `absolute-IRI`: one
`ALPHA`, greedily many scheme continuation characters, then a literal ":"
(exact for the ABNF because ":" is not a scheme character). -/
def schemeColon : List Char → Option (List Char)
  | c :: rest =>
    if isAlphaC c then
      match rest.dropWhile isSchemeContC with
      | ':' :: r => some r
      | _ => none
    else none
  | [] => none

/-- `[ "?" iquery ]`. -/
def optQuery (sp : SpecPolicy) (l : List Char) : List Char :=
  match l with
  | '?' :: rest => takeClass (iqueryP sp) rest
  | l => l

/-- `[ "#" ifragment ]`. -/
def optFragment (sp : SpecPolicy) (l : List Char) : List Char :=
  match l with
  | '#' :: rest => takeClass (ifragmentP sp) rest
  | l => l

/-- `absolute-IRI = scheme ":" ihier-part [ "?" iquery ]`. -/
def absoluteUriCore (sp : SpecPolicy) (l : List Char) : Option (List Char) :=
  (schemeColon l).map (fun r => optQuery sp (ihierPart sp r))

/-- `IRI = scheme ":" ihier-part [ "?" iquery ] [ "#" ifragment ]`;
by the ABNF this is exactly `absolute-IRI [ "#" ifragment ]`. -/
def uriCore (sp : SpecPolicy) (l : List Char) : Option (List Char) :=
  (absoluteUriCore sp l).map (optFragment sp)

/-- `irelative-ref = irelative-part [ "?" iquery ] [ "#" ifragment ]`.
Never fails structurally; an unacceptable input shows up as a non-empty
remainder. -/
def relativeRefCore (sp : SpecPolicy) (l : List Char) : Option (List Char) :=
  some (optFragment sp (optQuery sp (irelativePart sp l)))

/-- `IRI-reference = IRI / irelative-ref`, ordered choice as in the nom
`alt` combinator.  The alternatives are disjoint: a string in
`irelative-ref` cannot start with `scheme ":"`, since the first segment of
a scheme-less path admits no ":". -/
def uriReferenceCore (sp : SpecPolicy) (l : List Char) : Option (List Char) :=
  match uriCore sp l with
  | some r => some r
  | none => relativeRefCore sp l

/-- `ipath` (all path kinds): an optional first segment followed by
`*( "/" isegment )` accepts, under full consumption, exactly
`ipath-abempty / ipath-absolute / ipath-noscheme / ipath-rootless /
ipath-empty`. -/
def pathCore (sp : SpecPolicy) (l : List Char) : Option (List Char) :=
  some (pathNoAuthority sp (ipcharP sp) l)

/-- `ifragment` as a standalone production (without the leading "#"). -/
def fragmentCore (sp : SpecPolicy) (l : List Char) : Option (List Char) :=
  some (takeClass (ifragmentP sp) l)

/-! ## The nom plumbing and the validation layer (from `src/validate/iri.rs`) -/

/-- The shape of a nom `IResult` over string input: on success the
unconsumed remainder paired with an opaque parsed witness, on failure an
error payload of type `E`. -/
abbrev IResult (E O : Type) := Except E (List Char × O)

/-- Present a core parser as a grammar-engine function of the shape the
validation layer instantiates: error type `Unit` (the `()` error parameter
in `parser::uri::<(), IriSpec>`) and an opaque witness. -/
def toEngine (p : List Char → Option (List Char)) (l : List Char) : IResult Unit Unit :=
  match p l with
  | some rem => .ok (rem, ())
  | none => .error ()

namespace parser

/-- `parser::uri::<(), S>`. -/
def uri (sp : SpecPolicy) : List Char → IResult Unit Unit := toEngine (uriCore sp)

/-- `parser::uri_reference::<(), S>`. -/
def uri_reference (sp : SpecPolicy) : List Char → IResult Unit Unit :=
  toEngine (uriReferenceCore sp)

/-- `parser::absolute_uri::<(), S>`. -/
def absolute_uri (sp : SpecPolicy) : List Char → IResult Unit Unit :=
  toEngine (absoluteUriCore sp)

/-- `parser::relative_ref::<(), S>`. -/
def relative_ref (sp : SpecPolicy) : List Char → IResult Unit Unit :=
  toEngine (relativeRefCore sp)

/-- `parser::path::<(), S>`. -/
def path (sp : SpecPolicy) : List Char → IResult Unit Unit := toEngine (pathCore sp)

/-- `parser::fragment::<(), S>`. -/
def fragment (sp : SpecPolicy) : List Char → IResult Unit Unit :=
  toEngine (fragmentCore sp)

end parser

/-- nom's `all_consuming` combinator at error type `()`: succeed only when
the wrapped parser succeeds and leaves an empty remainder; a non-empty
remainder becomes an `Eof` error (whose payload at type `()` is `()`). -/
def all_consuming {O : Type} (f : List Char → IResult Unit O)
    (input : List Char) : IResult Unit O :=
  match f input with
  | .ok (rem, out) => if rem.isEmpty then .ok (rem, out) else .error ()
  | .error err => .error err

/-- `struct Error(())`: the RFC 3987 IRI validation error, deriving
`Debug, Clone, Copy, PartialEq, Eq, Hash`. -/
structure Error where
  payload : Unit
deriving DecidableEq, Repr

/-- The derived `Hash` of `Error(())` hashes its zero-sized field, i.e.
feeds nothing into the hasher: a constant. -/
instance : Hashable Error := ⟨fun _ => 0⟩

/-- `Error::new()`. -/
def Error.new : Error := ⟨()⟩

/-- `impl Display for Error`: `write!(f, "Invalid IRI")`. -/
def Error.message (_ : Error) : String := "Invalid IRI"

/-- `conv_err`: converts the given result into a validation result.
Rust `Result<T, E>` is `Except E T`. -/
def conv_err {T E : Type} (res : Except E T) : Except Error Unit :=
  match res with
  | .ok _ => .ok ()
  | .error _ => .error (Error.mk ())

/-- `pub fn iri(s: &str)`: validates an RFC 3987 IRI. -/
def iri (s : String) : Except Error Unit :=
  conv_err (all_consuming (parser.uri IriSpec) s.data)

/-- `pub fn iri_reference(s: &str)`: validates an RFC 3987 IRI reference. -/
def iri_reference (s : String) : Except Error Unit :=
  conv_err (all_consuming (parser.uri_reference IriSpec) s.data)

/-- `pub fn absolute_iri(s: &str)`: validates an RFC 3987 absolute IRI. -/
def absolute_iri (s : String) : Except Error Unit :=
  conv_err (all_consuming (parser.absolute_uri IriSpec) s.data)

/-- `pub fn relative_ref(s: &str)`: validates an RFC 3987 relative
reference. -/
def relative_ref (s : String) : Except Error Unit :=
  conv_err (all_consuming (parser.relative_ref IriSpec) s.data)

/-- `pub fn path(s: &str)`: validates an RFC 3987 IRI path. -/
def path (s : String) : Except Error Unit :=
  conv_err (all_consuming (parser.path IriSpec) s.data)

/-- `pub fn fragment(s: &str)`: validates an RFC 3987 IRI fragment. -/
def fragment (s : String) : Except Error Unit :=
  conv_err (all_consuming (parser.fragment IriSpec) s.data)

/-- Boolean success discriminant of a grammar-engine outcome (`is_ok`). -/
def resultIsOk {E T : Type} : Except E T → Bool
  | .ok _ => true
  | .error _ => false

/-! ## Bridging lemmas -/

/-- The engine wrapper succeeds with empty remainder exactly when the core
parser consumes the whole input. -/
theorem toEngine_ok_iff (p : List Char → Option (List Char)) (l : List Char) :
    toEngine p l = .ok ([], ()) ↔ p l = some [] := by
  unfold toEngine
  cases hp : p l <;> simp

/-- A wrapped validation call returns `Ok(())` exactly when the engine
parser succeeds leaving an empty remainder. -/
theorem validate_ok_iff (p : List Char → Option (List Char)) (l : List Char) :
    conv_err (all_consuming (toEngine p) l) = .ok () ↔ toEngine p l = .ok ([], ()) := by
  cases hp : p l with
  | none => simp [conv_err, all_consuming, toEngine, hp]
  | some rem =>
    cases rem with
    | nil => simp [conv_err, all_consuming, toEngine, hp]
    | cons c t => simp [conv_err, all_consuming, toEngine, hp]

/-- A wrapped validation call fails when the engine parser succeeds but
leaves a non-empty remainder (prefix-only match). -/
theorem validate_leftover (p : List Char → Option (List Char)) (l rem : List Char)
    (hrem : rem ≠ []) (h : toEngine p l = .ok (rem, ())) :
    conv_err (all_consuming (toEngine p) l) = .error Error.new := by
  cases hp : p l with
  | none => simp [toEngine, hp] at h
  | some r =>
    have hr : r = rem := by simpa [toEngine, hp] using h
    simp [conv_err, all_consuming, toEngine, hp, hr, hrem, Error.new]

/-- A wrapped validation call always returns one of the two contract
outcomes. -/
theorem validate_total (p : List Char → Option (List Char)) (l : List Char) :
    conv_err (all_consuming (toEngine p) l) = .ok () ∨
    conv_err (all_consuming (toEngine p) l) = .error Error.new := by
  cases hp : p l with
  | none => right; simp [conv_err, all_consuming, toEngine, hp, Error.new]
  | some rem =>
    cases rem with
    | nil => left; simp [conv_err, all_consuming, toEngine, hp]
    | cons a t => right; simp [conv_err, all_consuming, toEngine, hp, Error.new]

/-- `iri` succeeds exactly when the `IRI` production consumes the input. -/
theorem iri_ok_iff (s : String) :
    iri s = .ok () ↔ uriCore IriSpec s.data = some [] :=
  (validate_ok_iff (uriCore IriSpec) s.data).trans (toEngine_ok_iff _ _)

/-- `iri_reference` succeeds exactly when the `IRI-reference` production
consumes the input. -/
theorem iri_reference_ok_iff (s : String) :
    iri_reference s = .ok () ↔ uriReferenceCore IriSpec s.data = some [] :=
  (validate_ok_iff (uriReferenceCore IriSpec) s.data).trans (toEngine_ok_iff _ _)

/-- `absolute_iri` succeeds exactly when the `absolute-IRI` production
consumes the input. -/
theorem absolute_iri_ok_iff (s : String) :
    absolute_iri s = .ok () ↔ absoluteUriCore IriSpec s.data = some [] :=
  (validate_ok_iff (absoluteUriCore IriSpec) s.data).trans (toEngine_ok_iff _ _)

/-- If `absolute-IRI` consumes the whole input then so does `IRI` (the
optional fragment part is absent). -/
theorem uriCore_of_absolute (sp : SpecPolicy) (l : List Char)
    (h : absoluteUriCore sp l = some []) : uriCore sp l = some [] := by
  unfold uriCore
  rw [h]
  rfl

/-- If `IRI` consumes the whole input then so does `IRI-reference` (its
first alternative). -/
theorem uriReferenceCore_of_uri (sp : SpecPolicy) (l : List Char)
    (h : uriCore sp l = some []) : uriReferenceCore sp l = some [] := by
  unfold uriReferenceCore
  rw [h]

/-! ## Claim theorems -/

/-- C1: for every entry point (`iri`, `iri_reference`, `absolute_iri`,
`relative_ref`, `path`, `fragment`) and every input `s`, the call returns
`Ok(())` iff the corresponding grammar-engine production parser succeeds on
`s` leaving an empty remainder; in particular, when the parser succeeds
consuming only a proper prefix of `s` (a non-empty remainder is left), the
validation of `s` fails with the validation error. -/
theorem C1_full_consumption (s : String) (rem : List Char) (hrem : rem ≠ []) :
    ((iri s = .ok () ↔ parser.uri IriSpec s.data = .ok ([], ())) ∧
     (iri_reference s = .ok () ↔ parser.uri_reference IriSpec s.data = .ok ([], ())) ∧
     (absolute_iri s = .ok () ↔ parser.absolute_uri IriSpec s.data = .ok ([], ())) ∧
     (relative_ref s = .ok () ↔ parser.relative_ref IriSpec s.data = .ok ([], ())) ∧
     (path s = .ok () ↔ parser.path IriSpec s.data = .ok ([], ())) ∧
     (fragment s = .ok () ↔ parser.fragment IriSpec s.data = .ok ([], ()))) ∧
    ((parser.uri IriSpec s.data = .ok (rem, ()) → iri s = .error Error.new) ∧
     (parser.uri_reference IriSpec s.data = .ok (rem, ()) →
       iri_reference s = .error Error.new) ∧
     (parser.absolute_uri IriSpec s.data = .ok (rem, ()) →
       absolute_iri s = .error Error.new) ∧
     (parser.relative_ref IriSpec s.data = .ok (rem, ()) →
       relative_ref s = .error Error.new) ∧
     (parser.path IriSpec s.data = .ok (rem, ()) → path s = .error Error.new) ∧
     (parser.fragment IriSpec s.data = .ok (rem, ()) → fragment s = .error Error.new)) :=
  ⟨⟨validate_ok_iff _ _, validate_ok_iff _ _, validate_ok_iff _ _,
    validate_ok_iff _ _, validate_ok_iff _ _, validate_ok_iff _ _⟩,
   ⟨validate_leftover _ _ _ hrem, validate_leftover _ _ _ hrem,
    validate_leftover _ _ _ hrem, validate_leftover _ _ _ hrem,
    validate_leftover _ _ _ hrem, validate_leftover _ _ _ hrem⟩⟩

/-- Witness for C1: on `"http://x garbage"` the `IRI` production parses
only the prefix `"http://x"` and leaves `" garbage"`, so validation fails. -/
theorem C1_full_consumption_witness :
    iri "http://x garbage" = .error Error.new :=
  (C1_full_consumption "http://x garbage" (" garbage").data (by decide)).2.1 rfl

/-- C2: `conv_err` is total over every possible grammar-engine outcome:
every success maps to `Ok(())`, every failure — whatever its diagnostic
payload — maps to `Err(Error(()))`, and the output is always one of those
two values (it never fails itself, and neither the witness nor the payload
is propagated). -/
theorem C2_conv_err_total (T E : Type) (t : T) (e : E) (r : Except E T) :
    conv_err (Except.ok t : Except E T) = .ok () ∧
    conv_err (Except.error e : Except E T) = .error Error.new ∧
    (conv_err r = .ok () ∨ conv_err r = .error Error.new) := by
  refine ⟨rfl, rfl, ?_⟩
  cases r with
  | ok t2 => left; rfl
  | error e2 => right; rfl

/-- C3: there is exactly one validation error value: any two `Error` values
are equal, and their hashes are equal; the type carries no payload
distinguishing failure causes. -/
theorem C3_error_unique (e1 e2 : Error) :
    e1 = e2 ∧ hash e1 = hash e2 := by
  have h : e1 = e2 := by
    cases e1 with
    | mk u =>
      cases e2 with
      | mk v => cases u; cases v; rfl
  exact ⟨h, by rw [h]⟩

/-- C4: production containment: every string accepted by `absolute_iri` is
accepted by `iri`, and every string accepted by `iri` is accepted by
`iri_reference`. -/
theorem C4_containment (s : String) :
    (absolute_iri s = .ok () → iri s = .ok ()) ∧
    (iri s = .ok () → iri_reference s = .ok ()) := by
  constructor
  · intro h
    rw [absolute_iri_ok_iff] at h
    rw [iri_ok_iff]
    exact uriCore_of_absolute _ _ h
  · intro h
    rw [iri_ok_iff] at h
    rw [iri_reference_ok_iff]
    exact uriReferenceCore_of_uri _ _ h

/-- Witness for C4 at `s := "http://example.com/"`: the string is accepted
by `absolute_iri`, hence by `iri`, hence by `iri_reference`. -/
theorem C4_containment_witness :
    iri "http://example.com/" = .ok () ∧
    iri_reference "http://example.com/" = .ok () :=
  ⟨(C4_containment "http://example.com/").1 rfl,
   (C4_containment "http://example.com/").2
     ((C4_containment "http://example.com/").1 rfl)⟩

/-- C5: every entry point is deterministic: the embedding of each entry
point is a pure function of the input string alone (there is no state in
the model to influence it), so two calls on the same input are the same
value. -/
theorem C5_deterministic (s : String) :
    iri s = iri s ∧ iri_reference s = iri_reference s ∧
    absolute_iri s = absolute_iri s ∧ relative_ref s = relative_ref s ∧
    path s = path s ∧ fragment s = fragment s :=
  ⟨rfl, rfl, rfl, rfl, rfl, rfl⟩

/-- C6: `relative_ref "https://example.com/"` fails: the input carries a
scheme, which the `relative-ref` production forbids.  Concretely the
engine's `irelative-ref` parser stops at the first ":" (not admitted in the
first segment of a scheme-less path) having consumed only `"https"`, and
the non-empty remainder `"://example.com/"` makes `all_consuming` fail. -/
theorem C6_relative_ref_rejects_scheme :
    relative_ref "https://example.com/" = .error Error.new ∧
    parser.relative_ref IriSpec ("https://example.com/").data =
      .ok (("://example.com/").data, ()) :=
  ⟨rfl, rfl⟩

/-- C7: every entry point invokes the grammar engine under the Unicode-aware
IRI policy — each call is exactly the engine's production parser
instantiated at `IriSpec` (one policy per call) — and never the ASCII-only
plain-URI policy: the policies genuinely differ, e.g. the IRI with a
non-ASCII host accepted by `iri` below is rejected under `UriSpec`. -/
theorem C7_iri_policy (s : String) :
    (iri s = conv_err (all_consuming (parser.uri IriSpec) s.data)) ∧
    (iri_reference s = conv_err (all_consuming (parser.uri_reference IriSpec) s.data)) ∧
    (absolute_iri s = conv_err (all_consuming (parser.absolute_uri IriSpec) s.data)) ∧
    (relative_ref s = conv_err (all_consuming (parser.relative_ref IriSpec) s.data)) ∧
    (path s = conv_err (all_consuming (parser.path IriSpec) s.data)) ∧
    (fragment s = conv_err (all_consuming (parser.fragment IriSpec) s.data)) ∧
    (iri "http://é.example/" = .ok () ∧
     conv_err (all_consuming (parser.uri UriSpec) ("http://é.example/").data) =
       .error Error.new) :=
  ⟨rfl, rfl, rfl, rfl, rfl, rfl, rfl, rfl⟩

/-- C8: the human-readable message of the validation error is exactly
`"Invalid IRI"` for every error value — hence independent of the entry
point and input that produced it — and the error value itself is the unique
payload-free token `Error(())`, exposing nothing else. -/
theorem C8_error_message (e : Error) :
    e.message = "Invalid IRI" ∧ e = Error.new := by
  refine ⟨rfl, ?_⟩
  cases e with
  | mk u => cases u; rfl

/-- C9: every entry point is total: on any finite input string (including
the empty string) each of the six entry points returns either `Ok(())` or
`Err(Error(()))` — the model is a total function into exactly these two
outcomes. -/
theorem C9_totality (s : String) :
    (iri s = .ok () ∨ iri s = .error Error.new) ∧
    (iri_reference s = .ok () ∨ iri_reference s = .error Error.new) ∧
    (absolute_iri s = .ok () ∨ absolute_iri s = .error Error.new) ∧
    (relative_ref s = .ok () ∨ relative_ref s = .error Error.new) ∧
    (path s = .ok () ∨ path s = .error Error.new) ∧
    (fragment s = .ok () ∨ fragment s = .error Error.new) :=
  ⟨validate_total _ _, validate_total _ _, validate_total _ _,
   validate_total _ _, validate_total _ _, validate_total _ _⟩

/-- C10: the output of `conv_err` depends only on the success/failure
discriminant of its argument: two grammar-engine results with the same
discriminant — even of entirely different witness and payload types — are
mapped to the same validation result. -/
theorem C10_discriminant_only (T1 E1 T2 E2 : Type)
    (r1 : Except E1 T1) (r2 : Except E2 T2)
    (h : resultIsOk r1 = resultIsOk r2) :
    conv_err r1 = conv_err r2 := by
  cases r1 with
  | ok t1 =>
    cases r2 with
    | ok t2 => rfl
    | error e2 => exact absurd h (by simp [resultIsOk])
  | error e1 =>
    cases r2 with
    | ok t2 => exact absurd h (by simp [resultIsOk])
    | error e2 => rfl

/-- Witness for C10: a `Nat`-valued success and a `String`-valued success
with different payload types map to the same validation result. -/
theorem C10_discriminant_only_witness :
    conv_err (Except.ok 3 : Except Unit Nat) =
      conv_err (Except.ok "abc" : Except Bool String) :=
  C10_discriminant_only Nat Unit String Bool (Except.ok 3) (Except.ok "abc") rfl

end IriString
